import Mathlib

set_option maxHeartbeats 1000000

/-!
Shallow embedding of the iReserve email server (`api_server.py`): the
encrypted-recipient resolution pipeline and the dispatch engine.

External collaborators are modelled as parameters:
* the AES-256 raw block decryption (`pycryptodome`'s `cipher.decrypt` core) is a
  parameter `blockDec : List Nat → List Nat` — the repository only wires it into
  CBC chaining, hex decoding, padding removal and UTF-8 decoding, which are
  modelled concretely below;
* the PostgreSQL store is a `DB` record of query results (`Except` for
  connection/query failures);
* the SMTP transport is a function `outcomes : Nat → Option String` giving the
  outcome of the k-th SMTP session (`none` = delivered, `some e` = the
  exception text), together with an explicit log of the messages for which a
  network session was actually opened.

Bytes are `Nat`s below 256; strings are Lean `String`s with the Python
membership test `'@' in s` modelled on the character list.
-/

/-- Models the Python membership test `'@' in s` on a recipient string. -/
def hasAt (s : String) : Bool := s.data.contains '@'

/-- Models `str.split(':', 1)` followed by unpacking into two names:
`none` when the string has no `':'` (the unpack raises), otherwise the
parts before and after the FIRST `':'`. -/
def splitColonChars : List Char → Option (List Char × List Char)
  | [] => none
  | c :: rest =>
    if c = ':' then some ([], rest)
    else (splitColonChars rest).map (fun p => (c :: p.1, p.2))

/-- String-level wrapper of `splitColonChars`. -/
def splitColon (s : String) : Option (String × String) :=
  (splitColonChars s.data).map (fun p => (String.mk p.1, String.mk p.2))

/-- Value of one hexadecimal digit, as accepted by `bytes.fromhex`. -/
def hexVal (c : Char) : Option Nat :=
  if '0' ≤ c ∧ c ≤ '9' then some (c.toNat - '0'.toNat)
  else if 'a' ≤ c ∧ c ≤ 'f' then some (c.toNat - 'a'.toNat + 10)
  else if 'A' ≤ c ∧ c ≤ 'F' then some (c.toNat - 'A'.toNat + 10)
  else none

/-- Pairs of hex digits to bytes: a space is skipped only BETWEEN byte pairs
(before the first digit of a pair); the two digits of one pair must be
adjacent hex digits, so a space inside a pair, an odd digit count or a
non-hex digit yields `none`, exactly where `bytes.fromhex` raises
`ValueError`. -/
def fromHexChars : List Char → Option (List Nat)
  | [] => some []
  | ' ' :: rest => fromHexChars rest
  | [_] => none
  | c1 :: c2 :: rest =>
    match hexVal c1, hexVal c2, fromHexChars rest with
    | some h, some l, some bs => some ((h * 16 + l) :: bs)
    | _, _, _ => none

/-- Models `bytes.fromhex` on the string's characters. -/
def fromHex (s : String) : Option (List Nat) :=
  fromHexChars s.data

/-- Bytewise XOR of two equal-length byte blocks. -/
def xorBytes (a b : List Nat) : List Nat := List.zipWith Nat.xor a b

/-- CBC-mode decryption chaining with explicit fuel (one unit per input byte
is more than one per block, so `ct.length` units always suffice). -/
def cbcDecryptAux (blockDec : List Nat → List Nat) : Nat → List Nat → List Nat → List Nat
  | 0, _, _ => []
  | fuel + 1, prev, ct =>
    if ct = [] then []
    else
      xorBytes (blockDec (ct.take 16)) prev ++
        cbcDecryptAux blockDec fuel (ct.take 16) (ct.drop 16)

/-- CBC-mode decryption chaining (`AES.MODE_CBC`): each 16-byte ciphertext
block is fed to the raw block decryption and XORed with the previous
ciphertext block (initially the IV). -/
def cbcDecrypt (blockDec : List Nat → List Nat) (prev ct : List Nat) : List Nat :=
  cbcDecryptAux blockDec ct.length prev ct

/-- Models `Crypto.Util.Padding.unpad(data, 16)`: rejects empty or unaligned
input, a pad byte outside `1..16`, or a trailing run not matching the pad. -/
def unpad16 (data : List Nat) : Option (List Nat) :=
  if data.length = 0 then none
  else if data.length % 16 ≠ 0 then none
  else
    let padding_len := data.getLastD 0
    if padding_len < 1 ∨ 16 < padding_len then none
    else if data.drop (data.length - padding_len) = List.replicate padding_len padding_len then
      some (data.take (data.length - padding_len))
    else none

/-- Strict UTF-8 decoding of a byte sequence into characters, as performed by
`bytes.decode('utf-8')`: rejects stray continuation bytes, overlong forms,
surrogates and code points beyond U+10FFFF. -/
def utf8Decode : List Nat → Option (List Char)
  | [] => some []
  | b :: rest =>
    if b < 0x80 then
      (utf8Decode rest).map (fun cs => Char.ofNat b :: cs)
    else if b < 0xC2 then none
    else if b < 0xE0 then
      match rest with
      | b1 :: rest1 =>
        if 0x80 ≤ b1 ∧ b1 < 0xC0 then
          (utf8Decode rest1).map (fun cs => Char.ofNat ((b - 0xC0) * 0x40 + (b1 - 0x80)) :: cs)
        else none
      | [] => none
    else if b < 0xF0 then
      match rest with
      | b1 :: b2 :: rest2 =>
        if 0x80 ≤ b1 ∧ b1 < 0xC0 ∧ 0x80 ≤ b2 ∧ b2 < 0xC0 then
          let cp := (b - 0xE0) * 0x1000 + (b1 - 0x80) * 0x40 + (b2 - 0x80)
          if cp < 0x800 ∨ (0xD800 ≤ cp ∧ cp < 0xE000) then none
          else (utf8Decode rest2).map (fun cs => Char.ofNat cp :: cs)
        else none
      | _ => none
    else if b < 0xF5 then
      match rest with
      | b1 :: b2 :: b3 :: rest3 =>
        if 0x80 ≤ b1 ∧ b1 < 0xC0 ∧ 0x80 ≤ b2 ∧ b2 < 0xC0 ∧ 0x80 ≤ b3 ∧ b3 < 0xC0 then
          let cp := (b - 0xF0) * 0x40000 + (b1 - 0x80) * 0x1000 + (b2 - 0x80) * 0x40 + (b3 - 0x80)
          if cp < 0x10000 ∨ 0x110000 ≤ cp then none
          else (utf8Decode rest3).map (fun cs => Char.ofNat cp :: cs)
        else none
      | _ => none
    else none

/-- The distinct failure points of `decrypt_email`; the Python code folds all
of them into one `ValueError("Decryption failed: ...")`. -/
inductive DecodeError where
  | malformedToken
  | badHex
  | badIvLength
  | badBlockAlign
  | badPadding
  | badUtf8
deriving DecidableEq, Repr

/-- Embedding of `decrypt_email` (`api_server.py` lines 93-104): split the
token on the first `':'`, hex-decode both halves, check the IV length
(`AES.new`), CBC-decrypt (block alignment checked by `cipher.decrypt`),
remove padding (`unpad`) and decode the bytes as UTF-8. -/
def decrypt_email (blockDec : List Nat → List Nat) (encrypted_text : String) :
    Except DecodeError String :=
  match splitColon encrypted_text with
  | none => .error .malformedToken
  | some (iv_hex, ciphertext_hex) =>
    match fromHex iv_hex with
    | none => .error .badHex
    | some iv =>
      match fromHex ciphertext_hex with
      | none => .error .badHex
      | some ciphertext =>
        if iv.length ≠ 16 then .error .badIvLength
        else if ciphertext.length % 16 ≠ 0 then .error .badBlockAlign
        else
          match unpad16 (cbcDecrypt blockDec iv ciphertext) with
          | none => .error .badPadding
          | some decrypted_bytes =>
            match utf8Decode decrypted_bytes with
            | none => .error .badUtf8
            | some cs => .ok (String.mk cs)

/-- Embedding of `process_email` (`api_server.py` lines 106-116): return the
input unchanged when empty or already containing `'@'`; otherwise attempt
decryption and fall back to the original token on any decryption error. -/
def process_email (blockDec : List Nat → List Nat) (email : String) : String :=
  if email = "" then email
  else if hasAt email = false then
    match decrypt_email blockDec email with
    | .ok plaintext => plaintext
    | .error _ => email
  else email

-- sanity checks against the source's behaviour
example : process_email (fun b => b) "invalid_email" = "invalid_email" := by decide
example : process_email (fun b => b) "a@b.com" = "a@b.com" := by decide
example : process_email (fun b => b) "" = "" := by decide
example : decrypt_email (fun b => b) "invalid_format" = .error .malformedToken := rfl
example : decrypt_email (fun b => b) "0g:aa" = .error .badHex := rfl
example : decrypt_email (fun b => b) "00:00" = .error .badIvLength := rfl
-- bytes.fromhex skips spaces only between byte pairs and raises on a space
-- inside a pair
example : fromHex "aa bb" = some [0xAA, 0xBB] := rfl
example : fromHex " aa " = some [0xAA] := rfl
example : fromHex "a b" = none := rfl
example : fromHex "aab" = none := rfl
example : utf8Decode [97, 64, 98] = some ['a', '@', 'b'] := rfl
example : cbcDecrypt (fun _ => [97, 64, 98] ++ List.replicate 13 13)
    (List.replicate 16 0) (List.replicate 16 0) = [97, 64, 98] ++ List.replicate 13 13 := by decide
example : unpad16 ([97, 64, 98] ++ List.replicate 13 13) = some [97, 64, 98] := by decide

/-- Models the `FROM_NAME` environment configuration (its default value). -/
def FROM_NAME : String := "iReserve System"

/-- Models the `FROM_EMAIL` environment configuration. -/
def FROM_EMAIL : String := "ireserve@devs-central.co.za"

/-- The message assembled by `send_email` before the SMTP session
(`EmailMessage` with From/To/Subject, optional Reply-To and Cc, HTML body). -/
structure EmailMessage where
  from_ : String
  to_email : String
  subject : String
  reply_to : Option String
  cc : Option (List String)
  content : String
deriving DecidableEq, Repr

/-- Embedding of `send_email` (`api_server.py` lines 118-142).  The SMTP
collaborator is `outcomes : Nat → Option String`, the outcome of the k-th
SMTP session opened by the request (`none` = delivered, `some e` = the text of
the exception raised inside the `with SMTP_SSL` block); `calls` is the log of
messages for which a session was actually opened, so `calls.length` is the
index of the next session.  Returns the `(success, error)` pair together with
the updated log.  The function is total: it never raises. -/
def send_email (outcomes : Nat → Option String) (calls : List EmailMessage)
    (to_email subject html_body : String)
    (reply_to : Option String) (cc : Option (List String)) :
    (Bool × Option String) × List EmailMessage :=
  if to_email = "" ∨ hasAt to_email = false then
    ((false, some "Invalid email address"), calls)
  else
    let msg : EmailMessage :=
      { from_ := FROM_NAME ++ " <" ++ FROM_EMAIL ++ ">"
        to_email := to_email
        subject := subject
        reply_to := reply_to
        cc := cc
        content := html_body }
    match outcomes calls.length with
    | none => ((true, none), calls ++ [msg])
    | some e => ((false, some e), calls ++ [msg])

/-- The three fixed query shapes of `get_recipient_emails`. -/
inductive RecipientQuery where
  | all
  | residents
  | staff
deriving DecidableEq, Repr

/-- The branch selection of `get_recipient_emails`: which query text gets
assigned for a given `recipient_type`; `none` means no branch assigns the
local variable `query`. -/
def recipientQueryFor (recipient_type : String) : Option RecipientQuery :=
  if recipient_type = "ALL" then some .all
  else if recipient_type = "RESIDENTS" then some .residents
  else if recipient_type = "STAFF" then some .staff
  else none

/-- One row of the booking-reminder join (`resident_id, email, name,
booking_id, start_time, facility_name`); `start_time` is stored already
rendered by `strftime('%Y-%m-%d %H:%M')`, the only way the code reads it. -/
structure BookingRow where
  resident_id : Nat
  email : String
  name : String
  booking_id : Nat
  start_time : String
  facility_name : String
deriving DecidableEq, Repr

/-- The storage collaborator: the outcome of `psycopg2.connect`, of the three
recipient queries (rows are `row[0]`, a nullable email column), and of the
booking-reminder join. -/
structure DB where
  conn : Except String Unit
  execQuery : RecipientQuery → Except String (List (Option String))
  bookingsQuery : Except String (List BookingRow)

/-- The pure resolution step of `get_recipient_emails` (lines 171-175):
keep truthy `row[0]` values, decrypt-or-pass-through each, keep those that
contain `'@'`. -/
def resolveEmails (blockDec : List Nat → List Nat) (rows : List (Option String)) : List String :=
  let raw_emails := rows.filterMap (fun r => r.bind (fun s => if s = "" then none else some s))
  let emails := raw_emails.map (process_email blockDec)
  emails.filter (fun e => hasAt e)

/-- Embedding of `get_recipient_emails` (`api_server.py` lines 144-175):
connect, select the query for the `recipient_type` branch (an unrecognised
value leaves the local `query` unbound, so `cur.execute(query)` raises
`NameError`), execute it and resolve the rows.  Any raised exception is
returned as `.error`. -/
def get_recipient_emails (blockDec : List Nat → List Nat) (db : DB)
    (recipient_type : String) : Except String (List String) :=
  match db.conn with
  | .error e => .error e
  | .ok _ =>
    match recipientQueryFor recipient_type with
    | none => .error "local variable 'query' referenced before assignment"
    | some q =>
      match db.execQuery q with
      | .error e => .error e
      | .ok rows => .ok (resolveEmails blockDec rows)

/-- Embedding of `generate_email_html` (`api_server.py` lines 177-208): the
fixed notification template with the display name and message fragment
inserted verbatim. -/
def generate_email_html (message : String) (name : String) : String :=
  "\n    <!DOCTYPE html>\n    <html>\n    <head>\n        <style>\n            body \x7b font-family: Arial, sans-serif; line-height: 1.6; \x7d\n            .container \x7b max-width: 600px; margin: auto; padding: 20px; \x7d\n            .header \x7b background-color: #2563eb; color: white; padding: 20px; text-align: center; \x7d\n            .content \x7b padding: 20px; background-color: #ffffff; \x7d\n            .footer \x7b margin-top: 20px; font-size: 0.8em; color: #666; text-align: center; \x7d\n            ul \x7b list-style-type: none; padding: 0; \x7d\n            li \x7b margin-bottom: 10px; padding: 10px; background-color: #f8f9fa; border-radius: 4px; \x7d\n        </style>\n    </head>\n    <body>\n        <div class=\"container\">\n            <div class=\"header\">\n                <h2>iReserve System Notification</h2>\n            </div>\n            <div class=\"content\">\n                <p>Dear " ++ name ++ ",</p>\n                " ++ message ++ "\n                <p>Best regards,<br>The iReserve Team</p>\n            </div>\n            <div class=\"footer\">\n                <p>&copy; 2025 iReserve Community Sports Facility System</p>\n            </div>\n        </div>\n    </body>\n    </html>\n    "

/-- One entry of the broadcast result ledger
(`{"email": ..., "status": "success"|"failed", "error": ...}`). -/
structure DispatchResult where
  email : String
  status : String
  error : Option String
deriving DecidableEq, Repr

/-- `sum(1 for r in results if r["status"] == "success")` and its "failed"
analogue. -/
def countStatus (s : String) (results : List DispatchResult) : Nat :=
  (results.filter (fun r => r.status == s)).length

/-- The per-recipient send loop of `BroadcastEmail.post` (lines 293-301):
render, send, append one ledger entry per recipient — a failed send never
stops the iteration. -/
def broadcastLoop (outcomes : Nat → Option String) (subject message : String) :
    List String → List DispatchResult → List EmailMessage →
    List DispatchResult × List EmailMessage
  | [], results, calls => (results, calls)
  | email :: rest, results, calls =>
    let html_content := generate_email_html message "User"
    let sent := send_email outcomes calls email subject html_content none none
    broadcastLoop outcomes subject message rest
      (results ++ [{ email := email
                     status := if sent.1.1 then "success" else "failed"
                     error := sent.1.2 }])
      sent.2

/-- The JSON body and status code produced by `BroadcastEmail.post`, plus the
log of messages for which an SMTP session was opened. -/
structure BroadcastResponse where
  code : Nat
  status : String
  message : String
  results : List DispatchResult
  calls : List EmailMessage
deriving DecidableEq, Repr

/-- The `/emails/broadcast` request body (fields present or absent). -/
structure BroadcastReq where
  subject : Option String
  message : Option String
  recipient_type : Option String
deriving DecidableEq, Repr

/-- Embedding of `BroadcastEmail.post` (`api_server.py` lines 279-308). -/
def broadcastPost (blockDec : List Nat → List Nat) (db : DB)
    (outcomes : Nat → Option String) (data : BroadcastReq) : BroadcastResponse :=
  if ¬ (data.subject.isSome ∧ data.message.isSome ∧ data.recipient_type.isSome) then
    { code := 400, status := "error", message := "Missing required fields"
      results := [], calls := [] }
  else
    match get_recipient_emails blockDec db (data.recipient_type.getD "") with
    | .error e =>
      { code := 500, status := "error", message := "Database error: " ++ e
        results := [], calls := [] }
    | .ok emails =>
      if emails = [] then
        { code := 404, status := "error", message := "No valid recipients found"
          results := [], calls := [] }
      else
        let looped := broadcastLoop outcomes (data.subject.getD "") (data.message.getD "") emails [] []
        let success_count := countStatus "success" looped.1
        { code := 200, status := "success"
          message := "Broadcast complete. " ++ toString success_count ++ "/" ++
            toString looped.1.length ++ " emails sent successfully."
          results := looped.1
          calls := looped.2 }

/-- One value of the `bookings_by_email` dict: the display name fixed at the
first booking seen, then the `(facility_name, start_time)` list in row
order. -/
structure BookingGroup where
  name : String
  bookings : List (String × String)
deriving DecidableEq, Repr

/-- Insertion into the `bookings_by_email` dict (insertion-ordered, as Python
dicts are): append the booking to an existing key, or append a new entry at
the end with the row's display name. -/
def addBooking : List (String × BookingGroup) → String → String → String → String →
    List (String × BookingGroup)
  | [], key, nm, fac, t => [(key, { name := nm, bookings := [(fac, t)] })]
  | (k, g) :: rest, key, nm, fac, t =>
    if k = key then (k, { name := g.name, bookings := g.bookings ++ [(fac, t)] }) :: rest
    else (k, g) :: addBooking rest key nm fac t

/-- One iteration of the grouping loop of `BookingReminder.post` (lines
355-371): decrypt-or-pass-through the row's email, skip it when the result
lacks `'@'`, otherwise file the booking under the clean address. -/
def groupStep (blockDec : List Nat → List Nat)
    (acc : List (String × BookingGroup)) (row : BookingRow) :
    List (String × BookingGroup) :=
  let clean_email := process_email blockDec row.email
  if hasAt clean_email then addBooking acc clean_email row.name row.facility_name row.start_time
  else acc

/-- The whole grouping pass over the fetched rows. -/
def groupBookings (blockDec : List Nat → List Nat) (rows : List BookingRow) :
    List (String × BookingGroup) :=
  rows.foldl (groupStep blockDec) []

/-- `"None"` for `None`, the text itself otherwise — Python string
interpolation of an optional error. -/
def optStr : Option String → String
  | none => "None"
  | some s => s

/-- The itemised booking list fragment built by `BookingReminder.post`. -/
def bookingsHtml (bs : List (String × String)) : String :=
  "<ul>" ++ String.join (bs.map (fun b =>
    "<li><strong>" ++ b.1 ++ "</strong> at " ++ b.2 ++ "</li>")) ++ "</ul>"

/-- The reminder message fragment (lines 387-392). -/
def reminderMessage (bs : List (String × String)) : String :=
  "\n                <p>This is a reminder for your upcoming booking(s):</p>\n                " ++
    bookingsHtml bs ++
    "\n                <p>Please arrive on time for your booking(s).</p>\n                <p>You can view all your bookings in the iReserve system.</p>\n                "

/-- The per-recipient send loop of `BookingReminder.post` (lines 376-401):
one send per grouped recipient, counting successes and appending one detail
line per recipient. -/
def reminderLoop (outcomes : Nat → Option String) :
    List (String × BookingGroup) → Nat → List String → List EmailMessage →
    Nat × List String × List EmailMessage
  | [], emails_sent, results, calls => (emails_sent, results, calls)
  | (email, data) :: rest, emails_sent, results, calls =>
    let booking_count := data.bookings.length
    let subject := "Reminder: You have " ++ toString booking_count ++ " upcoming booking(s)"
    let message := reminderMessage data.bookings
    let html_content := generate_email_html message data.name
    let sent := send_email outcomes calls email subject html_content none none
    if sent.1.1 then
      reminderLoop outcomes rest (emails_sent + 1)
        (results ++ ["Reminder sent to " ++ email ++ " for " ++ toString booking_count ++ " booking(s)"])
        sent.2
    else
      reminderLoop outcomes rest emails_sent
        (results ++ ["Failed to send reminder to " ++ email ++ ": " ++ optStr sent.1.2])
        sent.2

/-- The JSON body and status code produced by `BookingReminder.post`
(`none` fields are absent from the body on the other path), plus the log of
messages for which an SMTP session was opened. -/
structure ReminderResponse where
  code : Nat
  status : String
  message : Option String
  messages_sent : Option Nat
  total_bookings : Option Nat
  details : Option (List String)
  calls : List EmailMessage
deriving DecidableEq, Repr

/-- Embedding of `BookingReminder.post` (`api_server.py` lines 316-419):
fetch the next-24h booking rows, short-circuit on an empty fetch, otherwise
group by decrypted recipient and run the send loop; any storage exception is
reported as a 500. -/
def reminderPost (blockDec : List Nat → List Nat) (db : DB)
    (outcomes : Nat → Option String) : ReminderResponse :=
  match db.conn with
  | .error e =>
    { code := 500, status := "error"
      message := some ("Failed to process booking reminders: " ++ e)
      messages_sent := none, total_bookings := none, details := none, calls := [] }
  | .ok _ =>
    match db.bookingsQuery with
    | .error e =>
      { code := 500, status := "error"
        message := some ("Failed to process booking reminders: " ++ e)
        messages_sent := none, total_bookings := none, details := none, calls := [] }
    | .ok bookings_data =>
      if bookings_data = [] then
        { code := 200, status := "success", message := none
          messages_sent := some 0, total_bookings := some 0
          details := some ["No bookings starting in the next 24 hours found"], calls := [] }
      else
        let bookings_by_email := groupBookings blockDec bookings_data
        let looped := reminderLoop outcomes bookings_by_email 0 [] []
        { code := 200, status := "success", message := none
          messages_sent := some looped.1
          total_bookings := some bookings_data.length
          details := some looped.2.1
          calls := looped.2.2 }

/-- The `/emails/send` request body (fields present or absent). -/
structure SendRequest where
  client_name : Option String
  client_email : Option String
  recipient_email : Option String
  subject : Option String
  message : Option String
  cc : Option (List String)
deriving DecidableEq, Repr

/-- The JSON body and status code produced by `EmailSender.post`, plus the
log of messages for which an SMTP session was opened. -/
structure SendResponse where
  code : Nat
  status : String
  message : String
  error : Option String
  calls : List EmailMessage
deriving DecidableEq, Repr

/-- The inline HTML template of `EmailSender.post` (lines 231-257) with the
request's message inserted verbatim. -/
def sendHtmlContent (message : String) : String :=
  "\n        <html>\n        <head>\n            <style>\n                body \x7b font-family: Arial, sans-serif; line-height: 1.6; \x7d\n                .container \x7b max-width: 600px; margin: 0 auto; padding: 20px; \x7d\n                .header \x7b background-color: #2E8B57; color: white; padding: 10px; text-align: center; \x7d\n                .content \x7b padding: 20px; \x7d\n                .footer \x7b margin-top: 20px; font-size: 0.8em; color: #666; \x7d\n            </style>\n        </head>\n        <body>\n            <div class=\"container\">\n                <div class=\"header\">\n                    <h2>Message from iReserve System</h2>\n                </div>\n                <div class=\"content\">\n                    <hr>\n                    <p>" ++ message ++ "</p>\n                </div>\n                <div class=\"footer\">\n                    <p>This email was sent via the iReserve Community Sports Facility System</p>\n                </div>\n            </div>\n        </body>\n        </html>\n        "

/-- Embedding of `EmailSender.post` (`api_server.py` lines 218-270): reject a
request with missing required fields, decrypt-or-pass-through the recipient,
reject it when the processed address lacks `'@'`, otherwise send one message
with Reply-To and Cc. -/
def emailSenderPost (blockDec : List Nat → List Nat)
    (outcomes : Nat → Option String) (data : SendRequest) : SendResponse :=
  if ¬ (data.client_name.isSome ∧ data.client_email.isSome ∧ data.recipient_email.isSome ∧
        data.subject.isSome ∧ data.message.isSome) then
    { code := 400, status := "error", message := "Missing required fields"
      error := none, calls := [] }
  else
    let processed_email := process_email blockDec (data.recipient_email.getD "")
    if hasAt processed_email = false then
      { code := 400, status := "error", message := "Invalid recipient email"
        error := none, calls := [] }
    else
      let html_content := sendHtmlContent (data.message.getD "")
      let sent := send_email outcomes [] processed_email (data.subject.getD "")
        html_content data.client_email data.cc
      if sent.1.1 then
        { code := 200, status := "success", message := "Email sent successfully"
          error := none, calls := sent.2 }
      else
        { code := 500, status := "error", message := "Failed to send email"
          error := sent.1.2, calls := sent.2 }

/-- The deliverable recipients of a booking-row sequence: each row's email
after decrypt-or-pass-through, kept when it contains `'@'`, in row order. -/
def deliverable (blockDec : List Nat → List Nat) (rows : List BookingRow) : List String :=
  rows.filterMap (fun row =>
    let clean_email := process_email blockDec row.email
    if hasAt clean_email then some clean_email else none)

lemma process_email_of_hasAt (blockDec : List Nat → List Nat) (s : String)
    (h : hasAt s = true) : process_email blockDec s = s := by
  have hne : s ≠ "" := by
    intro he
    rw [he] at h
    exact absurd h (by decide)
  simp [process_email, hne, h]

lemma process_email_of_error (blockDec : List Nat → List Nat) (s : String) (err : DecodeError)
    (hd : decrypt_email blockDec s = .error err) : process_email blockDec s = s := by
  by_cases hne : s = ""
  · simp [process_email, hne]
  · by_cases hat : hasAt s = true
    · simp [process_email, hne, hat]
    · simp only [Bool.not_eq_true] at hat
      simp [process_email, hne, hat, hd]

lemma resolveEmails_append (blockDec : List Nat → List Nat) (l1 l2 : List (Option String)) :
    resolveEmails blockDec (l1 ++ l2) = resolveEmails blockDec l1 ++ resolveEmails blockDec l2 := by
  simp [resolveEmails, List.filterMap_append, List.map_append, List.filter_append]

lemma resolveEmails_single_bad (blockDec : List Nat → List Nat) (bad : String)
    (hpe : process_email blockDec bad = bad) (hat : hasAt bad = false) :
    resolveEmails blockDec [some bad] = [] := by
  by_cases hne : bad = ""
  · simp [resolveEmails, hne]
  · simp [resolveEmails, hne, hpe, hat]

lemma mem_resolveEmails_hasAt (blockDec : List Nat → List Nat) (rows : List (Option String))
    (x : String) (hx : x ∈ resolveEmails blockDec rows) : hasAt x = true := by
  simp only [resolveEmails, List.mem_filter] at hx
  exact hx.2

lemma get_recipient_emails_ok (blockDec : List Nat → List Nat) (db : DB)
    (rt : String) (q : RecipientQuery) (rows : List (Option String))
    (hc : db.conn = .ok ()) (hq : recipientQueryFor rt = some q)
    (he : db.execQuery q = .ok rows) :
    get_recipient_emails blockDec db rt = .ok (resolveEmails blockDec rows) := by
  simp [get_recipient_emails, hc, hq, he]

/-- C1: for every candidate sequence, a candidate whose decode fails is absent
from the resolved set, its presence leaves the resolution of the remaining
valid candidates unchanged, and the resolver still returns normally to its
caller — the per-candidate decode failure never escapes `get_recipient_emails`
(only a storage failure can). -/
theorem resolver_isolates_failed_decode (blockDec : List Nat → List Nat)
    (pre post : List (Option String)) (bad : String) (err : DecodeError)
    (hdec : decrypt_email blockDec bad = .error err) (hat : hasAt bad = false) :
    bad ∉ resolveEmails blockDec (pre ++ some bad :: post)
    ∧ resolveEmails blockDec (pre ++ some bad :: post) = resolveEmails blockDec (pre ++ post)
    ∧ ∀ (db : DB) (rt : String) (q : RecipientQuery),
        db.conn = .ok () → recipientQueryFor rt = some q →
        db.execQuery q = .ok (pre ++ some bad :: post) →
        get_recipient_emails blockDec db rt = .ok (resolveEmails blockDec (pre ++ post)) := by
  have hpe := process_email_of_error blockDec bad err hdec
  have hmid := resolveEmails_single_bad blockDec bad hpe hat
  have heq : resolveEmails blockDec (pre ++ some bad :: post)
      = resolveEmails blockDec (pre ++ post) := by
    have h1 : pre ++ some bad :: post = pre ++ [some bad] ++ post := by simp
    rw [h1, resolveEmails_append, resolveEmails_append, hmid, resolveEmails_append]
    simp
  refine ⟨?_, heq, ?_⟩
  · intro hmem
    have := mem_resolveEmails_hasAt blockDec _ bad hmem
    rw [hat] at this
    exact absurd this (by decide)
  · intro db rt q hc hq he
    rw [get_recipient_emails_ok blockDec db rt q _ hc hq he, heq]

/-- C1 witness: a concrete undecryptable token between two valid candidates. -/
theorem resolver_isolates_failed_decode_witness :
    "zz" ∉ resolveEmails (fun b => b) [some "a@a.com", some "zz", some "b@b.com"]
    ∧ resolveEmails (fun b => b) [some "a@a.com", some "zz", some "b@b.com"]
      = resolveEmails (fun b => b) [some "a@a.com", some "b@b.com"] := by
  have h := resolver_isolates_failed_decode (fun b => b) [some "a@a.com"] [some "b@b.com"]
    "zz" .malformedToken rfl rfl
  exact ⟨h.1, h.2.1⟩

/-- C6: a candidate whose raw field contains `'@'` is resolved verbatim: the
decrypt-or-pass-through step returns it unchanged for EVERY block cipher (so
no decryption can affect it), and it appears unchanged, in position, in the
resolved list. -/
theorem plaintext_candidates_resolve_verbatim (blockDec : List Nat → List Nat)
    (pre post : List (Option String)) (s : String) (h : hasAt s = true) :
    process_email blockDec s = s
    ∧ s ∈ resolveEmails blockDec (pre ++ some s :: post)
    ∧ resolveEmails blockDec (pre ++ some s :: post)
      = resolveEmails blockDec pre ++ s :: resolveEmails blockDec post := by
  have hne : s ≠ "" := by
    intro he
    rw [he] at h
    exact absurd h (by decide)
  have hpe := process_email_of_hasAt blockDec s h
  have hmid : resolveEmails blockDec [some s] = [s] := by
    simp [resolveEmails, hne, hpe, h]
  have heq : resolveEmails blockDec (pre ++ some s :: post)
      = resolveEmails blockDec pre ++ s :: resolveEmails blockDec post := by
    have h1 : pre ++ some s :: post = pre ++ [some s] ++ post := by simp
    rw [h1, resolveEmails_append, resolveEmails_append, hmid]
    simp
  exact ⟨hpe, by rw [heq]; simp, heq⟩

/-- C6 witness: a concrete plaintext address next to an encrypted-looking one. -/
theorem plaintext_candidates_resolve_verbatim_witness :
    process_email (fun b => b) "a@a.com" = "a@a.com"
    ∧ "a@a.com" ∈ resolveEmails (fun b => b) [some "zz", some "a@a.com"] := by
  have h := plaintext_candidates_resolve_verbatim (fun b => b) [some "zz"] [] "a@a.com" rfl
  exact ⟨h.1, h.2.1⟩

/-- Specification-side description of the ledger the broadcast loop builds:
the entry for the i-th recipient records "success" exactly when the i-th
transport session succeeded, and carries the transport's error text. -/
def specLedger (outcomes : Nat → Option String) (k : Nat) : List String → List DispatchResult
  | [] => []
  | e :: rest =>
    { email := e
      status := if (outcomes k).isNone then "success" else "failed"
      error := outcomes k } :: specLedger outcomes (k + 1) rest

/-- The message the broadcast loop hands to the transport for recipient `e`. -/
def broadcastMsgFor (subject message e : String) : EmailMessage :=
  { from_ := FROM_NAME ++ " <" ++ FROM_EMAIL ++ ">"
    to_email := e
    subject := subject
    reply_to := none
    cc := none
    content := generate_email_html message "User" }

lemma broadcastLoop_eq (outcomes : Nat → Option String) (subject message : String) :
    ∀ (emails : List String) (results : List DispatchResult) (calls : List EmailMessage),
      (∀ e ∈ emails, hasAt e = true) →
      broadcastLoop outcomes subject message emails results calls
        = (results ++ specLedger outcomes calls.length emails,
           calls ++ emails.map (broadcastMsgFor subject message)) := by
  intro emails
  induction emails with
  | nil =>
    intro results calls _
    simp [broadcastLoop, specLedger]
  | cons e rest ih =>
    intro results calls hmem
    have he : hasAt e = true := hmem e (List.mem_cons_self e rest)
    have hne : e ≠ "" := by
      intro h0
      rw [h0] at he
      exact absurd he (by decide)
    have hrest : ∀ x ∈ rest, hasAt x = true := fun x hx => hmem x (List.mem_cons_of_mem e hx)
    have hsend : send_email outcomes calls e subject (generate_email_html message "User") none none
        = (((outcomes calls.length).isNone, outcomes calls.length),
           calls ++ [broadcastMsgFor subject message e]) := by
      simp only [send_email, hne, he]
      cases ho : outcomes calls.length <;> simp [broadcastMsgFor, ho]
    simp only [broadcastLoop, hsend]
    rw [ih _ _ hrest]
    simp [specLedger, List.append_assoc]

lemma specLedger_length (outcomes : Nat → Option String) :
    ∀ (emails : List String) (k : Nat), (specLedger outcomes k emails).length = emails.length := by
  intro emails
  induction emails with
  | nil => intro k; rfl
  | cons e rest ih => intro k; simp [specLedger, ih]

lemma specLedger_get? (outcomes : Nat → Option String) :
    ∀ (emails : List String) (k i : Nat),
      (specLedger outcomes k emails).get? i
        = (emails.get? i).map (fun e =>
            { email := e
              status := if (outcomes (k + i)).isNone then "success" else "failed"
              error := outcomes (k + i) }) := by
  intro emails
  induction emails with
  | nil => intro k i; simp [specLedger]
  | cons e rest ih =>
    intro k i
    cases i with
    | zero => simp [specLedger]
    | succ j =>
      simp only [specLedger, List.get?_cons_succ, ih (k + 1) j]
      have : k + 1 + j = k + (j + 1) := by omega
      rw [this]

lemma specLedger_status (outcomes : Nat → Option String) :
    ∀ (emails : List String) (k : Nat) (r : DispatchResult),
      r ∈ specLedger outcomes k emails → r.status = "success" ∨ r.status = "failed" := by
  intro emails
  induction emails with
  | nil => intro k r hr; simp [specLedger] at hr
  | cons e rest ih =>
    intro k r hr
    simp only [specLedger, List.mem_cons] at hr
    cases hr with
    | inl h =>
      rw [h]
      cases ho : (outcomes k).isNone <;> simp [ho]
    | inr h => exact ih (k + 1) r h

lemma countStatus_success_add_failed (results : List DispatchResult)
    (h : ∀ r ∈ results, r.status = "success" ∨ r.status = "failed") :
    countStatus "success" results + countStatus "failed" results = results.length := by
  induction results with
  | nil => rfl
  | cons r rest ih =>
    have hrest : ∀ x ∈ rest, x.status = "success" ∨ x.status = "failed" :=
      fun x hx => h x (List.mem_cons_of_mem r hx)
    have hr := h r (List.mem_cons_self r rest)
    have ihr := ih hrest
    cases hr with
    | inl hs =>
      have h1 : (r.status == "success") = true := by rw [hs]; decide
      have h2 : (r.status == "failed") = false := by rw [hs]; decide
      simp only [countStatus] at ihr ⊢
      simp [List.filter_cons, h1, h2]
      omega
    | inr hf =>
      have h1 : (r.status == "success") = false := by rw [hf]; decide
      have h2 : (r.status == "failed") = true := by rw [hf]; decide
      simp only [countStatus] at ihr ⊢
      simp [List.filter_cons, h1, h2]
      omega

/-- C9: the mail-transport send operation is a total function returning a
`(success, error)` pair: an empty or `'@'`-less recipient address is rejected
as an input-validation failure with no SMTP session opened (the session log is
unchanged), and for a structurally valid address exactly one session is
opened, the pair reflecting that session's outcome. -/
theorem send_email_never_raises (outcomes : Nat → Option String)
    (calls : List EmailMessage) (to_email subject html_body : String)
    (reply_to : Option String) (cc : Option (List String)) :
    (to_email = "" ∨ hasAt to_email = false →
      send_email outcomes calls to_email subject html_body reply_to cc
        = ((false, some "Invalid email address"), calls))
    ∧ (to_email ≠ "" → hasAt to_email = true →
      send_email outcomes calls to_email subject html_body reply_to cc
        = (((outcomes calls.length).isNone, outcomes calls.length),
           calls ++ [{ from_ := FROM_NAME ++ " <" ++ FROM_EMAIL ++ ">"
                       to_email := to_email
                       subject := subject
                       reply_to := reply_to
                       cc := cc
                       content := html_body }])) := by
  constructor
  · intro h
    simp only [send_email]
    rw [if_pos h]
  · intro h1 h2
    simp only [send_email]
    rw [if_neg (not_or.mpr ⟨h1, by simp [h2]⟩)]
    cases ho : outcomes calls.length <;> simp [ho]

/-- C9 witness: a concrete invalid address (validation failure, no session)
and a concrete valid address with a failing transport session. -/
theorem send_email_never_raises_witness :
    send_email (fun _ => none) [] "invalid" "s" "b" none none
      = ((false, some "Invalid email address"), [])
    ∧ send_email (fun _ => some "boom") [] "to@x.com" "s" "b" none none
      = ((false, some "boom"),
         [{ from_ := FROM_NAME ++ " <" ++ FROM_EMAIL ++ ">"
            to_email := "to@x.com"
            subject := "s"
            reply_to := none
            cc := none
            content := "b" }]) := by
  constructor
  · exact (send_email_never_raises (fun _ => none) [] "invalid" "s" "b" none none).1
      (Or.inr rfl)
  · exact (send_email_never_raises (fun _ => some "boom") [] "to@x.com" "s" "b" none none).2
      (by decide) rfl

/-- The message the reminder loop hands to the transport for one grouped
recipient. -/
def reminderMsgFor (email : String) (g : BookingGroup) : EmailMessage :=
  { from_ := FROM_NAME ++ " <" ++ FROM_EMAIL ++ ">"
    to_email := email
    subject := "Reminder: You have " ++ toString g.bookings.length ++ " upcoming booking(s)"
    reply_to := none
    cc := none
    content := generate_email_html (reminderMessage g.bookings) g.name }

/-- Specification-side description of the reminder detail ledger: one line per
grouped recipient, a sent line when the transport session succeeded and a
failure line carrying the transport's error text otherwise. -/
def specDetails (outcomes : Nat → Option String) (k : Nat) :
    List (String × BookingGroup) → List String
  | [] => []
  | (email, g) :: rest =>
    (match outcomes k with
     | none => "Reminder sent to " ++ email ++ " for " ++ toString g.bookings.length ++ " booking(s)"
     | some err => "Failed to send reminder to " ++ email ++ ": " ++ err)
    :: specDetails outcomes (k + 1) rest

/-- Specification-side count of successful reminder sends. -/
def specSent (outcomes : Nat → Option String) (k : Nat) : List (String × BookingGroup) → Nat
  | [] => 0
  | _ :: rest => (if (outcomes k).isNone then 1 else 0) + specSent outcomes (k + 1) rest

/-- Specification-side count of failed reminder sends. -/
def specFailed (outcomes : Nat → Option String) (k : Nat) : List (String × BookingGroup) → Nat
  | [] => 0
  | _ :: rest => (if (outcomes k).isNone then 0 else 1) + specFailed outcomes (k + 1) rest

lemma reminderLoop_eq (outcomes : Nat → Option String) :
    ∀ (gs : List (String × BookingGroup)) (sent : Nat) (details : List String)
      (calls : List EmailMessage),
      (∀ p ∈ gs, hasAt p.1 = true) →
      reminderLoop outcomes gs sent details calls
        = (sent + specSent outcomes calls.length gs,
           details ++ specDetails outcomes calls.length gs,
           calls ++ gs.map (fun p => reminderMsgFor p.1 p.2)) := by
  intro gs
  induction gs with
  | nil =>
    intro sent details calls _
    simp [reminderLoop, specSent, specDetails]
  | cons p rest ih =>
    obtain ⟨email, g⟩ := p
    intro sent details calls hmem
    have he : hasAt email = true := hmem (email, g) (List.mem_cons_self _ _)
    have hne : email ≠ "" := by
      intro h0
      rw [h0] at he
      exact absurd he (by decide)
    have hrest : ∀ x ∈ rest, hasAt x.1 = true := fun x hx => hmem x (List.mem_cons_of_mem _ hx)
    have hsend : send_email outcomes calls email
        ("Reminder: You have " ++ toString g.bookings.length ++ " upcoming booking(s)")
        (generate_email_html (reminderMessage g.bookings) g.name) none none
        = (((outcomes calls.length).isNone, outcomes calls.length),
           calls ++ [reminderMsgFor email g]) := by
      simp only [send_email, hne, he]
      cases ho : outcomes calls.length <;> simp [reminderMsgFor, ho]
    cases ho : outcomes calls.length with
    | none =>
      simp only [reminderLoop, hsend, ho, Option.isNone_none, if_true]
      rw [ih _ _ _ hrest]
      simp [specSent, specDetails, ho, List.append_assoc, Nat.add_assoc]
    | some err =>
      simp only [reminderLoop, hsend, ho, Option.isNone_some, Bool.false_eq_true, if_false]
      rw [ih _ _ _ hrest]
      simp [specSent, specDetails, ho, optStr, List.append_assoc, Nat.add_assoc]

lemma specSent_le (outcomes : Nat → Option String) :
    ∀ (gs : List (String × BookingGroup)) (k : Nat), specSent outcomes k gs ≤ gs.length := by
  intro gs
  induction gs with
  | nil => intro k; simp [specSent]
  | cons p rest ih =>
    intro k
    have := ih (k + 1)
    cases ho : (outcomes k).isNone <;> simp [specSent, ho] <;> omega

lemma specSent_add_specFailed (outcomes : Nat → Option String) :
    ∀ (gs : List (String × BookingGroup)) (k : Nat),
      specSent outcomes k gs + specFailed outcomes k gs = gs.length := by
  intro gs
  induction gs with
  | nil => intro k; simp [specSent, specFailed]
  | cons p rest ih =>
    intro k
    have := ih (k + 1)
    cases ho : (outcomes k).isNone <;> simp [specSent, specFailed, ho] <;> omega

lemma specDetails_length (outcomes : Nat → Option String) :
    ∀ (gs : List (String × BookingGroup)) (k : Nat),
      (specDetails outcomes k gs).length = gs.length := by
  intro gs
  induction gs with
  | nil => intro k; rfl
  | cons p rest ih =>
    obtain ⟨email, g⟩ := p
    intro k
    simp [specDetails, ih]

lemma specDetails_get? (outcomes : Nat → Option String) :
    ∀ (gs : List (String × BookingGroup)) (k i : Nat),
      (specDetails outcomes k gs).get? i
        = (gs.get? i).map (fun p =>
            match outcomes (k + i) with
            | none => "Reminder sent to " ++ p.1 ++ " for " ++
                toString p.2.bookings.length ++ " booking(s)"
            | some err => "Failed to send reminder to " ++ p.1 ++ ": " ++ err) := by
  intro gs
  induction gs with
  | nil => intro k i; simp [specDetails]
  | cons p rest ih =>
    obtain ⟨email, g⟩ := p
    intro k i
    cases i with
    | zero => simp [specDetails]
    | succ j =>
      simp only [specDetails, List.get?_cons_succ, ih (k + 1) j]
      have : k + 1 + j = k + (j + 1) := by omega
      rw [this]

lemma specDetails_forms (outcomes : Nat → Option String) :
    ∀ (gs : List (String × BookingGroup)) (k : Nat) (d : String),
      d ∈ specDetails outcomes k gs →
      (∃ e n, d = "Reminder sent to " ++ e ++ " for " ++ n ++ " booking(s)")
      ∨ (∃ e t, d = "Failed to send reminder to " ++ e ++ ": " ++ t) := by
  intro gs
  induction gs with
  | nil => intro k d hd; simp [specDetails] at hd
  | cons p rest ih =>
    obtain ⟨email, g⟩ := p
    intro k d hd
    simp only [specDetails, List.mem_cons] at hd
    cases hd with
    | inl h =>
      cases ho : outcomes k with
      | none =>
        rw [ho] at h
        exact Or.inl ⟨email, toString g.bookings.length, h⟩
      | some err =>
        rw [ho] at h
        exact Or.inr ⟨email, err, h⟩
    | inr h => exact ih (k + 1) d h

lemma addBooking_keys_mem (acc : List (String × BookingGroup)) (key nm fac t x : String) :
    x ∈ (addBooking acc key nm fac t).map Prod.fst ↔ x ∈ acc.map Prod.fst ∨ x = key := by
  induction acc with
  | nil => simp [addBooking]
  | cons q rest ih =>
    obtain ⟨k, g⟩ := q
    by_cases hk : k = key
    · subst hk
      simp [addBooking]
      tauto
    · simp [addBooking, hk, ih]
      tauto

lemma addBooking_keys_of_mem (acc : List (String × BookingGroup)) (key nm fac t : String)
    (h : key ∈ acc.map Prod.fst) :
    (addBooking acc key nm fac t).map Prod.fst = acc.map Prod.fst := by
  induction acc with
  | nil => simp at h
  | cons q rest ih =>
    obtain ⟨k, g⟩ := q
    by_cases hk : k = key
    · subst hk
      simp [addBooking]
    · have hmem : key ∈ rest.map Prod.fst := by
        have h2 : key = k ∨ key ∈ rest.map Prod.fst := by simpa using h
        cases h2 with
        | inl h0 => exact absurd h0.symm hk
        | inr h0 => exact h0
      simp [addBooking, hk, ih hmem]

lemma addBooking_keys_of_not_mem (acc : List (String × BookingGroup)) (key nm fac t : String)
    (h : key ∉ acc.map Prod.fst) :
    (addBooking acc key nm fac t).map Prod.fst = acc.map Prod.fst ++ [key] := by
  induction acc with
  | nil => simp [addBooking]
  | cons q rest ih =>
    obtain ⟨k, g⟩ := q
    have hk : k ≠ key := by
      intro he
      exact h (by simp [he])
    have hrest : key ∉ rest.map Prod.fst := fun hm => h (by simp [hm])
    simp [addBooking, hk, ih hrest]

lemma addBooking_fst_mem (acc : List (String × BookingGroup)) (key nm fac t : String)
    (p : String × BookingGroup) (hp : p ∈ addBooking acc key nm fac t) :
    p.1 ∈ acc.map Prod.fst ∨ p.1 = key := by
  induction acc with
  | nil =>
    simp only [addBooking, List.mem_singleton] at hp
    rw [hp]
    exact Or.inr rfl
  | cons q rest ih =>
    obtain ⟨k, g⟩ := q
    by_cases hk : k = key
    · subst hk
      have hp2 : p = (k, { name := g.name, bookings := g.bookings ++ [(fac, t)] }) ∨ p ∈ rest := by
        have := hp
        simp only [addBooking, eq_self_iff_true, if_true, List.mem_cons] at this
        exact this
      cases hp2 with
      | inl h0 => rw [h0]; exact Or.inr rfl
      | inr h0 =>
        left
        simp only [List.map_cons, List.mem_cons]
        right
        exact List.mem_map_of_mem Prod.fst h0
    · have hp2 : p = (k, g) ∨ p ∈ addBooking rest key nm fac t := by
        have := hp
        simp only [addBooking, if_neg hk, List.mem_cons] at this
        exact this
      cases hp2 with
      | inl h0 => rw [h0]; left; simp
      | inr h0 =>
        cases ih h0 with
        | inl h1 => left; simp only [List.map_cons, List.mem_cons]; right; exact h1
        | inr h1 => exact Or.inr h1

lemma deliverable_cons (blockDec : List Nat → List Nat) (row : BookingRow)
    (rest : List BookingRow) :
    deliverable blockDec (row :: rest)
      = (if hasAt (process_email blockDec row.email) then
          [process_email blockDec row.email] else []) ++ deliverable blockDec rest := by
  by_cases hd : hasAt (process_email blockDec row.email) = true
  · simp [deliverable, List.filterMap_cons, hd]
  · simp only [Bool.not_eq_true] at hd
    simp [deliverable, List.filterMap_cons, hd]

lemma groupBookings_go_keys_mem (blockDec : List Nat → List Nat) :
    ∀ (rows : List BookingRow) (acc : List (String × BookingGroup)) (x : String),
      x ∈ (rows.foldl (groupStep blockDec) acc).map Prod.fst
        ↔ x ∈ acc.map Prod.fst ∨ x ∈ deliverable blockDec rows := by
  intro rows
  induction rows with
  | nil =>
    intro acc x
    simp [deliverable]
  | cons row rest ih =>
    intro acc x
    simp only [List.foldl_cons]
    rw [ih, deliverable_cons]
    by_cases hd : hasAt (process_email blockDec row.email) = true
    · simp only [groupStep, hd, if_true, addBooking_keys_mem, List.mem_append,
        List.mem_singleton]
      tauto
    · simp only [Bool.not_eq_true] at hd
      simp only [groupStep, hd, Bool.false_eq_true, if_false, List.nil_append]

lemma groupBookings_go_keys_nodup (blockDec : List Nat → List Nat) :
    ∀ (rows : List BookingRow) (acc : List (String × BookingGroup)),
      (acc.map Prod.fst).Nodup → ((rows.foldl (groupStep blockDec) acc).map Prod.fst).Nodup := by
  intro rows
  induction rows with
  | nil => intro acc h; simpa using h
  | cons row rest ih =>
    intro acc h
    simp only [List.foldl_cons]
    apply ih
    by_cases hd : hasAt (process_email blockDec row.email) = true
    · simp only [groupStep, hd, if_true]
      by_cases hm : process_email blockDec row.email ∈ acc.map Prod.fst
      · rw [addBooking_keys_of_mem _ _ _ _ _ hm]
        exact h
      · rw [addBooking_keys_of_not_mem _ _ _ _ _ hm]
        simp [List.nodup_append, h, hm]
    · simp only [Bool.not_eq_true] at hd
      simp only [groupStep, hd, Bool.false_eq_true, if_false]
      exact h

lemma groupBookings_go_keys_length (blockDec : List Nat → List Nat) :
    ∀ (rows : List BookingRow) (acc : List (String × BookingGroup)),
      ((rows.foldl (groupStep blockDec) acc).map Prod.fst).length
        ≤ (acc.map Prod.fst).length + (deliverable blockDec rows).length := by
  intro rows
  induction rows with
  | nil =>
    intro acc
    simp [deliverable]
  | cons row rest ih =>
    intro acc
    simp only [List.foldl_cons]
    rw [deliverable_cons]
    by_cases hd : hasAt (process_email blockDec row.email) = true
    · have hstep : ((groupStep blockDec acc row).map Prod.fst).length
          ≤ (acc.map Prod.fst).length + 1 := by
        simp only [groupStep, hd, if_true]
        by_cases hm : process_email blockDec row.email ∈ acc.map Prod.fst
        · rw [addBooking_keys_of_mem _ _ _ _ _ hm]
          omega
        · rw [addBooking_keys_of_not_mem _ _ _ _ _ hm]
          simp
      have := ih (groupStep blockDec acc row)
      simp only [hd, if_true, List.length_append, List.length_singleton]
      omega
    · simp only [Bool.not_eq_true] at hd
      have := ih (groupStep blockDec acc row)
      have hstep : (groupStep blockDec acc row).map Prod.fst = acc.map Prod.fst := by
        simp [groupStep, hd]
      rw [hstep] at this
      simp only [hd, Bool.false_eq_true, if_false, List.nil_append]
      exact this

lemma groupBookings_go_fst_hasAt (blockDec : List Nat → List Nat) :
    ∀ (rows : List BookingRow) (acc : List (String × BookingGroup)),
      (∀ p ∈ acc, hasAt p.1 = true) →
      ∀ p ∈ rows.foldl (groupStep blockDec) acc, hasAt p.1 = true := by
  intro rows
  induction rows with
  | nil => intro acc h; simpa using h
  | cons row rest ih =>
    intro acc h
    simp only [List.foldl_cons]
    apply ih
    by_cases hd : hasAt (process_email blockDec row.email) = true
    · simp only [groupStep, hd, if_true]
      intro p hp
      cases addBooking_fst_mem acc _ _ _ _ p hp with
      | inl h0 =>
        obtain ⟨q, hq, hql⟩ := List.mem_map.mp h0
        rw [← hql]
        exact h q hq
      | inr h0 => rw [h0]; exact hd
    · simp only [Bool.not_eq_true] at hd
      simp only [groupStep, hd, Bool.false_eq_true, if_false]
      exact h

lemma groupBookings_keys_mem (blockDec : List Nat → List Nat) (rows : List BookingRow)
    (x : String) :
    x ∈ (groupBookings blockDec rows).map Prod.fst ↔ x ∈ deliverable blockDec rows := by
  have := groupBookings_go_keys_mem blockDec rows [] x
  simpa [groupBookings] using this

lemma groupBookings_keys_nodup (blockDec : List Nat → List Nat) (rows : List BookingRow) :
    ((groupBookings blockDec rows).map Prod.fst).Nodup :=
  groupBookings_go_keys_nodup blockDec rows [] (by simp)

lemma groupBookings_keys_length (blockDec : List Nat → List Nat) (rows : List BookingRow) :
    ((groupBookings blockDec rows).map Prod.fst).length ≤ (deliverable blockDec rows).length := by
  have := groupBookings_go_keys_length blockDec rows []
  simpa [groupBookings] using this

lemma groupBookings_fst_hasAt (blockDec : List Nat → List Nat) (rows : List BookingRow) :
    ∀ p ∈ groupBookings blockDec rows, hasAt p.1 = true :=
  groupBookings_go_fst_hasAt blockDec rows [] (by simp)

lemma deliverable_length_le (blockDec : List Nat → List Nat) (rows : List BookingRow) :
    (deliverable blockDec rows).length ≤ rows.length :=
  List.length_filterMap_le _ _

/-- C3: in both dispatch loops a transport failure for one recipient is
recorded as a FAILED ledger entry carrying the transport's error text, every
remaining recipient is still attempted (one entry per recipient, in order,
whatever the outcomes), and an entry is a success exactly when the transport
reported success for that recipient's session. -/
theorem transport_failure_never_aborts_batch (outcomes : Nat → Option String)
    (subject message : String) (emails : List String)
    (hmem : ∀ e ∈ emails, hasAt e = true)
    (blockDec : List Nat → List Nat) (rows : List BookingRow) :
    (broadcastLoop outcomes subject message emails [] []).1.length = emails.length
    ∧ (∀ i : Nat,
        (broadcastLoop outcomes subject message emails [] []).1.get? i
          = (emails.get? i).map (fun e =>
              { email := e
                status := if (outcomes i).isNone then "success" else "failed"
                error := outcomes i }))
    ∧ (reminderLoop outcomes (groupBookings blockDec rows) 0 [] []).2.1.length
        = (groupBookings blockDec rows).length
    ∧ (∀ i : Nat,
        (reminderLoop outcomes (groupBookings blockDec rows) 0 [] []).2.1.get? i
          = ((groupBookings blockDec rows).get? i).map (fun p =>
              match outcomes i with
              | none => "Reminder sent to " ++ p.1 ++ " for " ++
                  toString p.2.bookings.length ++ " booking(s)"
              | some err => "Failed to send reminder to " ++ p.1 ++ ": " ++ err)) := by
  have hb := broadcastLoop_eq outcomes subject message emails [] [] hmem
  have hr := reminderLoop_eq outcomes (groupBookings blockDec rows) 0 [] []
    (groupBookings_fst_hasAt blockDec rows)
  refine ⟨?_, ?_, ?_, ?_⟩
  · rw [hb]
    simp [specLedger_length]
  · intro i
    rw [hb]
    simp only [List.nil_append, List.length_nil]
    have := specLedger_get? outcomes emails 0 i
    simpa using this
  · rw [hr]
    simp [specDetails_length]
  · intro i
    rw [hr]
    simp only [List.nil_append, List.length_nil]
    have := specDetails_get? outcomes (groupBookings blockDec rows) 0 i
    simpa using this

/-- C3 witness: two resolved recipients, first session succeeds, second fails
with "err!"; the second entry is FAILED with that text and the ledger still
has both entries. -/
theorem transport_failure_never_aborts_batch_witness :
    (broadcastLoop (fun k => if k = 1 then some "err!" else none) "S" "M"
        ["a@a.com", "b@b.com"] [] []).1.get? 1
      = some { email := "b@b.com", status := "failed", error := some "err!" }
    ∧ (broadcastLoop (fun k => if k = 1 then some "err!" else none) "S" "M"
        ["a@a.com", "b@b.com"] [] []).1.length = 2 := by
  have h := transport_failure_never_aborts_batch (fun k => if k = 1 then some "err!" else none)
    "S" "M" ["a@a.com", "b@b.com"] (by decide) (fun b => b) []
  constructor
  · rw [h.2.1 1]
    rfl
  · rw [h.1]
    rfl

/-- C4: for every fetched booking-row sequence, grouped reminder mode opens
exactly one SMTP session per unique deliverable recipient email (however many
bookings that recipient has), the reported `total_bookings` is the row count,
`messages_sent <= total_bookings`, and equality forces every resolved
recipient to have exactly one booking row. -/
theorem grouped_reminders_once_per_recipient (blockDec : List Nat → List Nat)
    (db : DB) (outcomes : Nat → Option String) (rows : List BookingRow)
    (hconn : db.conn = .ok ()) (hrows : db.bookingsQuery = .ok rows) :
    ((reminderPost blockDec db outcomes).calls.map (fun m => m.to_email)
        = (groupBookings blockDec rows).map Prod.fst)
    ∧ (∀ x : String,
        ((reminderPost blockDec db outcomes).calls.map (fun m => m.to_email)).count x
          = if x ∈ deliverable blockDec rows then 1 else 0)
    ∧ (reminderPost blockDec db outcomes).total_bookings = some rows.length
    ∧ (∀ m : Nat, (reminderPost blockDec db outcomes).messages_sent = some m →
        m ≤ rows.length
        ∧ (m = rows.length → ∀ x : String, (deliverable blockDec rows).count x ≤ 1)) := by
  by_cases hnil : rows = []
  · subst hnil
    have hpost : reminderPost blockDec db outcomes
        = { code := 200, status := "success", message := none
            messages_sent := some 0, total_bookings := some 0
            details := some ["No bookings starting in the next 24 hours found"], calls := [] } := by
      simp [reminderPost, hconn, hrows]
    refine ⟨?_, ?_, ?_, ?_⟩
    · simp [hpost, groupBookings]
    · intro x
      simp [hpost, deliverable]
    · simp [hpost]
    · intro m hm
      simp only [hpost] at hm
      have : m = 0 := by
        have := Option.some_injective _ hm.symm
        omega
      subst this
      refine ⟨Nat.le_refl 0, ?_⟩
      intro _ x
      simp [deliverable]
  · have hloop := reminderLoop_eq outcomes (groupBookings blockDec rows) 0 [] []
      (groupBookings_fst_hasAt blockDec rows)
    have hpost : reminderPost blockDec db outcomes
        = { code := 200, status := "success", message := none
            messages_sent := some (specSent outcomes 0 (groupBookings blockDec rows))
            total_bookings := some rows.length
            details := some (specDetails outcomes 0 (groupBookings blockDec rows))
            calls := (groupBookings blockDec rows).map (fun p => reminderMsgFor p.1 p.2) } := by
      simp [reminderPost, hconn, hrows, hnil, hloop]
    have hmap : (reminderPost blockDec db outcomes).calls.map (fun m => m.to_email)
        = (groupBookings blockDec rows).map Prod.fst := by
      rw [hpost]
      rw [List.map_map]
      rfl
    have hchain : (groupBookings blockDec rows).length ≤ (deliverable blockDec rows).length := by
      have h1 := groupBookings_keys_length blockDec rows
      have h2 : ((groupBookings blockDec rows).map Prod.fst).length
          = (groupBookings blockDec rows).length := List.length_map _ _
      omega
    refine ⟨hmap, ?_, ?_, ?_⟩
    · intro x
      rw [hmap]
      by_cases hx : x ∈ deliverable blockDec rows
      · rw [if_pos hx]
        exact List.count_eq_one_of_mem (groupBookings_keys_nodup blockDec rows)
          ((groupBookings_keys_mem blockDec rows x).mpr hx)
      · rw [if_neg hx]
        exact List.count_eq_zero_of_not_mem
          (fun hm => hx ((groupBookings_keys_mem blockDec rows x).mp hm))
    · simp [hpost]
    · intro m hm
      simp only [hpost, Option.some_inj] at hm
      have hle1 : specSent outcomes 0 (groupBookings blockDec rows)
          ≤ (groupBookings blockDec rows).length := specSent_le outcomes _ 0
      have hle2 := deliverable_length_le blockDec rows
      constructor
      · omega
      · intro heq x
        have hlen : (deliverable blockDec rows).length
            = ((groupBookings blockDec rows).map Prod.fst).length := by
          have h2 : ((groupBookings blockDec rows).map Prod.fst).length
              = (groupBookings blockDec rows).length := List.length_map _ _
          omega
        have hnd := groupBookings_keys_nodup blockDec rows
        have htfs : ((groupBookings blockDec rows).map Prod.fst).toFinset
            = (deliverable blockDec rows).toFinset := by
          apply Finset.ext
          intro a
          simp only [List.mem_toFinset]
          exact groupBookings_keys_mem blockDec rows a
        have hc1 : ((groupBookings blockDec rows).map Prod.fst).toFinset.card
            = ((groupBookings blockDec rows).map Prod.fst).length :=
          List.toFinset_card_of_nodup hnd
        have hc2 : (deliverable blockDec rows).toFinset.card
            = (deliverable blockDec rows).dedup.length := List.card_toFinset _
        have hdlen : (deliverable blockDec rows).dedup.length
            = (deliverable blockDec rows).length := by
          rw [← hc2, ← htfs, hc1, hlen]
        have hded : (deliverable blockDec rows).dedup = deliverable blockDec rows :=
          List.Sublist.eq_of_length (List.dedup_sublist _) hdlen
        have hnodup : (deliverable blockDec rows).Nodup := List.dedup_eq_self.mp hded
        exact List.nodup_iff_count_le_one.mp hnodup x

/-- Concrete booking rows: the same recipient holds two bookings. -/
def rowsTwo : List BookingRow :=
  [{ resident_id := 1, email := "a@x.com", name := "John", booking_id := 1,
     start_time := "2025-01-01 10:00", facility_name := "Court 1" },
   { resident_id := 1, email := "a@x.com", name := "John", booking_id := 2,
     start_time := "2025-01-01 12:00", facility_name := "Court 2" }]

/-- A store whose booking query returns `rowsTwo`. -/
def dbTwoBookings : DB :=
  { conn := .ok ()
    execQuery := fun _ => .ok []
    bookingsQuery := .ok rowsTwo }

/-- C4 witness: with two bookings for one recipient, exactly one session is
opened for that recipient. -/
theorem grouped_reminders_once_per_recipient_witness :
    ((reminderPost (fun b => b) dbTwoBookings (fun _ => none)).calls.map
        (fun m => m.to_email)).count "a@x.com"
      = (if "a@x.com" ∈ deliverable (fun b => b) rowsTwo then 1 else 0) :=
  (grouped_reminders_once_per_recipient (fun b => b) dbTwoBookings (fun _ => none)
    rowsTwo rfl rfl).2.1 "a@x.com"

lemma get_recipient_emails_ok_inv (blockDec : List Nat → List Nat) (db : DB)
    (rt : String) (emails : List String)
    (h : get_recipient_emails blockDec db rt = .ok emails) :
    ∀ e ∈ emails, hasAt e = true := by
  intro e he
  cases hc : db.conn with
  | error e2 => simp [get_recipient_emails, hc] at h
  | ok u =>
    cases hq : recipientQueryFor rt with
    | none => simp [get_recipient_emails, hc, hq] at h
    | some q =>
      cases hx : db.execQuery q with
      | error e2 => simp [get_recipient_emails, hc, hq, hx] at h
      | ok rows =>
        simp only [get_recipient_emails, hc, hq, hx, Except.ok.injEq] at h
        subst h
        exact mem_resolveEmails_hasAt blockDec rows e he

/-- C2 (amended): in both routes every ledger entry's outcome is SUCCESS or
FAILED and successCount + failureCount = totalCount; the broadcast response
surfaces successCount and totalCount in its message alongside the ledger,
while the reminder response surfaces successCount as `messages_sent` — its
`total_bookings` field is the fetched row count, not the ledger length. -/
theorem dispatch_ledger_counts (blockDec : List Nat → List Nat) (db : DB)
    (outcomes : Nat → Option String) (req : BroadcastReq) (rows : List BookingRow)
    (sbj msg rt : String)
    (hs : req.subject = some sbj) (hm : req.message = some msg)
    (hr : req.recipient_type = some rt)
    (emails : List String)
    (hfetch : get_recipient_emails blockDec db rt = .ok emails)
    (hne : emails ≠ [])
    (hconn : db.conn = .ok ()) (hrows : db.bookingsQuery = .ok rows) (hrne : rows ≠ []) :
    (broadcastPost blockDec db outcomes req).code = 200
    ∧ (∀ r ∈ (broadcastPost blockDec db outcomes req).results,
        r.status = "success" ∨ r.status = "failed")
    ∧ countStatus "success" (broadcastPost blockDec db outcomes req).results
        + countStatus "failed" (broadcastPost blockDec db outcomes req).results
        = (broadcastPost blockDec db outcomes req).results.length
    ∧ (broadcastPost blockDec db outcomes req).message
        = "Broadcast complete. "
          ++ toString (countStatus "success" (broadcastPost blockDec db outcomes req).results)
          ++ "/" ++ toString (broadcastPost blockDec db outcomes req).results.length
          ++ " emails sent successfully."
    ∧ (∀ d ∈ (reminderPost blockDec db outcomes).details.getD [],
        (∃ e n, d = "Reminder sent to " ++ e ++ " for " ++ n ++ " booking(s)")
        ∨ (∃ e t, d = "Failed to send reminder to " ++ e ++ ": " ++ t))
    ∧ (reminderPost blockDec db outcomes).messages_sent
        = some (specSent outcomes 0 (groupBookings blockDec rows))
    ∧ specSent outcomes 0 (groupBookings blockDec rows)
        + specFailed outcomes 0 (groupBookings blockDec rows)
        = ((reminderPost blockDec db outcomes).details.getD []).length := by
  have hmemE := get_recipient_emails_ok_inv blockDec db rt emails hfetch
  have hBL := broadcastLoop_eq outcomes sbj msg emails [] [] hmemE
  have hpostB : broadcastPost blockDec db outcomes req
      = { code := 200, status := "success"
          message := "Broadcast complete. "
            ++ toString (countStatus "success" (specLedger outcomes 0 emails))
            ++ "/" ++ toString (specLedger outcomes 0 emails).length
            ++ " emails sent successfully."
          results := specLedger outcomes 0 emails
          calls := emails.map (broadcastMsgFor sbj msg) } := by
    simp [broadcastPost, hs, hm, hr, hfetch, hne, hBL]
  have hloop := reminderLoop_eq outcomes (groupBookings blockDec rows) 0 [] []
    (groupBookings_fst_hasAt blockDec rows)
  have hpostR : reminderPost blockDec db outcomes
      = { code := 200, status := "success", message := none
          messages_sent := some (specSent outcomes 0 (groupBookings blockDec rows))
          total_bookings := some rows.length
          details := some (specDetails outcomes 0 (groupBookings blockDec rows))
          calls := (groupBookings blockDec rows).map (fun p => reminderMsgFor p.1 p.2) } := by
    simp [reminderPost, hconn, hrows, hrne, hloop]
  refine ⟨?_, ?_, ?_, ?_, ?_, ?_, ?_⟩
  · rw [hpostB]
  · intro r hrr
    rw [hpostB] at hrr
    exact specLedger_status outcomes emails 0 r hrr
  · rw [hpostB]
    exact countStatus_success_add_failed _ (specLedger_status outcomes emails 0)
  · rw [hpostB]
  · intro d hd
    rw [hpostR] at hd
    simp only [Option.getD_some] at hd
    exact specDetails_forms outcomes (groupBookings blockDec rows) 0 d hd
  · rw [hpostR]
  · rw [hpostR]
    simp only [Option.getD_some]
    rw [specDetails_length, specSent_add_specFailed]

/-- A store for the scenario witnesses: two plaintext broadcast candidates and
two bookings held by one recipient. -/
def dbW2 : DB :=
  { conn := .ok ()
    execQuery := fun _ => .ok [some "one@x.com", some "two@x.com"]
    bookingsQuery := .ok rowsTwo }

/-- The scenario broadcast request. -/
def reqW2 : BroadcastReq :=
  { subject := some "S", message := some "M", recipient_type := some "ALL" }

/-- C2 witness: the scenario request; the broadcast message surfaces
successCount and totalCount of its ledger. -/
theorem dispatch_ledger_counts_witness :
    (broadcastPost (fun b => b) dbW2 (fun k => if k = 1 then some "err!" else none) reqW2).message
      = "Broadcast complete. "
        ++ toString (countStatus "success"
            (broadcastPost (fun b => b) dbW2 (fun k => if k = 1 then some "err!" else none) reqW2).results)
        ++ "/" ++ toString (broadcastPost (fun b => b) dbW2
            (fun k => if k = 1 then some "err!" else none) reqW2).results.length
        ++ " emails sent successfully." :=
  (dispatch_ledger_counts (fun b => b) dbW2 (fun k => if k = 1 then some "err!" else none)
    reqW2 rowsTwo "S" "M" "ALL" rfl rfl rfl ["one@x.com", "two@x.com"] rfl (by decide)
    rfl rfl (by decide)).2.2.2.1

/-- C2 counterexample: with two bookings for one recipient and a failing
transport, the reminder ledger has exactly one entry, but the response
surfaces `messages_sent = 0` and `total_bookings = 2` — the ledger length (1,
the claim's totalCount) appears in neither surfaced aggregate, so the claim
that both aggregates of the ledger are surfaced alongside it is false for the
reminder route. -/
theorem reminder_ledger_total_not_surfaced :
    ((reminderPost (fun b => b) dbTwoBookings (fun _ => some "boom")).details.getD []).length = 1
    ∧ (reminderPost (fun b => b) dbTwoBookings (fun _ => some "boom")).messages_sent = some 0
    ∧ (reminderPost (fun b => b) dbTwoBookings (fun _ => some "boom")).total_bookings = some 2
    ∧ (reminderPost (fun b => b) dbTwoBookings (fun _ => some "boom")).messages_sent
        ≠ some (((reminderPost (fun b => b) dbTwoBookings (fun _ => some "boom")).details.getD []).length)
    ∧ (reminderPost (fun b => b) dbTwoBookings (fun _ => some "boom")).total_bookings
        ≠ some (((reminderPost (fun b => b) dbTwoBookings (fun _ => some "boom")).details.getD []).length) := by
  refine ⟨rfl, rfl, rfl, by decide, by decide⟩

/-- C5 (amended): zero deliverable recipients short-circuit both routes
without opening any SMTP session; the broadcast route responds 404 (non-200)
with no ledger, while the reminder route responds 200 with
`messages_sent = 0`. -/
theorem zero_recipients_short_circuit (blockDec : List Nat → List Nat) (db : DB)
    (outcomes : Nat → Option String) (req : BroadcastReq) (rows : List BookingRow)
    (sbj msg rt : String)
    (hs : req.subject = some sbj) (hm : req.message = some msg)
    (hr : req.recipient_type = some rt)
    (hfetch : get_recipient_emails blockDec db rt = .ok [])
    (hconn : db.conn = .ok ()) (hrows : db.bookingsQuery = .ok rows)
    (hdel : deliverable blockDec rows = []) :
    broadcastPost blockDec db outcomes req
      = { code := 404, status := "error", message := "No valid recipients found"
          results := [], calls := [] }
    ∧ (reminderPost blockDec db outcomes).code = 200
    ∧ (reminderPost blockDec db outcomes).messages_sent = some 0
    ∧ (reminderPost blockDec db outcomes).calls = [] := by
  constructor
  · simp [broadcastPost, hs, hm, hr, hfetch]
  · by_cases hnil : rows = []
    · subst hnil
      refine ⟨?_, ?_, ?_⟩ <;> simp [reminderPost, hconn, hrows]
    · have hgs : groupBookings blockDec rows = [] := by
        have hkeys : (groupBookings blockDec rows).map Prod.fst = [] := by
          apply List.eq_nil_iff_forall_not_mem.mpr
          intro x hx
          have hx2 := (groupBookings_keys_mem blockDec rows x).mp hx
          rw [hdel] at hx2
          simp at hx2
        exact List.map_eq_nil.mp hkeys
      have hloop : reminderLoop outcomes (groupBookings blockDec rows) 0 [] [] = (0, [], []) := by
        rw [hgs]
        rfl
      refine ⟨?_, ?_, ?_⟩ <;> simp [reminderPost, hconn, hrows, hnil, hloop]

/-- A store with no candidates and no bookings. -/
def dbEmpty : DB :=
  { conn := .ok (), execQuery := fun _ => .ok [], bookingsQuery := .ok [] }

/-- C5 witness: an empty store short-circuits both routes without any SMTP
session. -/
theorem zero_recipients_short_circuit_witness :
    broadcastPost (fun b => b) dbEmpty (fun _ => none) reqW2
      = { code := 404, status := "error", message := "No valid recipients found"
          results := [], calls := [] }
    ∧ (reminderPost (fun b => b) dbEmpty (fun _ => none)).calls = [] := by
  have h := zero_recipients_short_circuit (fun b => b) dbEmpty (fun _ => none) reqW2 []
    "S" "M" "ALL" rfl rfl rfl rfl rfl rfl rfl
  exact ⟨h.1, h.2.2.2⟩

/-- C5 counterexample: a reminder request that resolves to zero deliverable
recipients returns HTTP 200 with a zero-sent result — the claim's demand that
the response for zero deliverable recipients be non-200 fails on the reminder
route. -/
theorem zero_recipients_reminder_returns_200 :
    (reminderPost (fun b => b) dbEmpty (fun _ => none)).code = 200
    ∧ (reminderPost (fun b => b) dbEmpty (fun _ => none)).messages_sent = some 0
    ∧ (reminderPost (fun b => b) dbEmpty (fun _ => none)).calls = [] :=
  ⟨rfl, rfl, rfl⟩

/-- C8 evidence (code bug): a broadcast request whose `recipient_type` is
outside the ALL / RESIDENTS / STAFF enumeration is NOT rejected as a
validation error before resolution: the handler proceeds into
`get_recipient_emails`, which opens the storage connection and then raises on
the unbound local `query`, so the route answers 500 "Database error: ..."
instead of the documented 400 validation rejection (the route declares
`@api.response(400, 'Validation Error')` and the repository's own test
`test_model_validations` expects 400 here).  Missing required fields, by
contrast, are rejected with 400 before any resolution, as the claim states. -/
theorem invalid_recipient_type_reaches_storage :
    broadcastPost (fun b => b) dbW2 (fun _ => none)
      { subject := some "s", message := some "m", recipient_type := some "INVALID" }
      = { code := 500, status := "error"
          message := "Database error: local variable 'query' referenced before assignment"
          results := [], calls := [] }
    ∧ broadcastPost (fun b => b) dbW2 (fun _ => none)
      { subject := some "s", message := none, recipient_type := some "ALL" }
      = { code := 400, status := "error", message := "Missing required fields"
          results := [], calls := [] }
    ∧ get_recipient_emails (fun b => b) dbW2 "INVALID"
      = .error "local variable 'query' referenced before assignment" :=
  ⟨rfl, rfl, rfl⟩

/-- C10: `process_email` is a total function — the empty string and any string
containing '@' are returned unchanged, and when decryption of an '@'-less
token fails the original token is returned unchanged (still lacking '@') —
so on the individual-send route an undecryptable recipient token is rejected
by the subsequent '@' check as a 400 "Invalid recipient email" validation
error with no SMTP session opened. -/
theorem process_email_total_fallback (blockDec : List Nat → List Nat)
    (e : String) (err : DecodeError) (outcomes : Nat → Option String)
    (req : SendRequest)
    (hat : hasAt e = false) (hdec : decrypt_email blockDec e = .error err)
    (h1 : req.client_name.isSome = true) (h2 : req.client_email.isSome = true)
    (h3 : req.recipient_email = some e) (h4 : req.subject.isSome = true)
    (h5 : req.message.isSome = true) :
    process_email blockDec "" = ""
    ∧ (∀ s : String, hasAt s = true → process_email blockDec s = s)
    ∧ process_email blockDec e = e
    ∧ hasAt (process_email blockDec e) = false
    ∧ emailSenderPost blockDec outcomes req
      = { code := 400, status := "error", message := "Invalid recipient email"
          error := none, calls := [] } := by
  have hpe := process_email_of_error blockDec e err hdec
  refine ⟨by simp [process_email], ?_, hpe, ?_, ?_⟩
  · intro s hs
    exact process_email_of_hasAt blockDec s hs
  · rw [hpe]
    exact hat
  · have h3s : req.recipient_email.isSome = true := by rw [h3]; rfl
    simp [emailSenderPost, h1, h2, h3s, h4, h5, h3, hpe, hat]

/-- C10 witness: the undecryptable token "zz" passes through unchanged and the
individual-send route rejects it with 400 and no SMTP session. -/
theorem process_email_total_fallback_witness :
    process_email (fun b => b) "zz" = "zz"
    ∧ emailSenderPost (fun b => b) (fun _ => none)
        { client_name := some "A", client_email := some "a@a.com"
          recipient_email := some "zz", subject := some "s"
          message := some "m", cc := none }
      = { code := 400, status := "error", message := "Invalid recipient email"
          error := none, calls := [] } := by
  have h := process_email_total_fallback (fun b => b) "zz" .malformedToken (fun _ => none)
    { client_name := some "A", client_email := some "a@a.com"
      recipient_email := some "zz", subject := some "s"
      message := some "m", cc := none }
    rfl rfl rfl rfl rfl rfl rfl
  exact ⟨h.2.2.1, h.2.2.2.2⟩
